import Mathlib

/-!
Verification of the civicsync-be rate-limiter and vote-toggle subsystem.

The definitions below are a shallow embedding of the Go source:
  * `issueRateLimiter` embeds `IssueRateLimiter` from
    src/middlewares/issueRateLimiter.go (a gin middleware over a Redis
    counter store);
  * `handleVoteOnIssue` embeds `HandleVoteOnIssue` from
    src/controllers/issueController.go (a gin handler over a MongoDB
    vote collection);
  * `ensureVoteIndex` embeds `EnsureVoteIndex` from src/models/vote.go.

The backing stores (Redis, MongoDB) are not part of the repository; their
primitive operations (INCR, EXPIRE, TTL, FindOne, CountDocuments,
InsertOne, DeleteOne) are modelled from the store contracts stated in the
specification: INCR is an atomic increment returning the new value;
EXPIRE sets a key's time to live; TTL reads the remaining time to live;
InsertOne fails distinctly on a uniqueness-constraint violation when a
unique index has been created on the collection; DeleteOne removes the
first matching document and succeeds as a no-op on zero matches.
-/

namespace CivicSync

/-! ## Redis counter-store model -/

/-- State of one Redis key used by the rate limiter: the integer counter
value and the remaining time to live (`none` means the key has no expiry,
as for a key created by INCR before any EXPIRE). -/
structure RKeyState where
  count : Int
  ttl : Option Nat
deriving DecidableEq, Repr

/-- The Redis store, as a partial map from keys to key states. -/
abbrev RedisStore := String → Option RKeyState

/-- The empty Redis store. -/
def emptyRedis : RedisStore := fun _ => none

/-- Point update of a Redis store. -/
def rset (st : RedisStore) (k : String) (v : RKeyState) : RedisStore :=
  fun k' => if k' = k then some v else st k'

/-- Redis INCR: creates the key with value 1 if absent, otherwise adds one
to the stored counter, and returns the post-increment value together with
the updated store. This is a single atomic store operation. -/
def redisIncr (st : RedisStore) (k : String) : Int × RedisStore :=
  match st k with
  | none => (1, rset st k ⟨1, none⟩)
  | some e => (e.count + 1, rset st k ⟨e.count + 1, e.ttl⟩)

/-- Redis EXPIRE: sets the time to live of an existing key; a no-op on an
absent key. -/
def redisExpire (st : RedisStore) (k : String) (w : Nat) : RedisStore :=
  match st k with
  | none => st
  | some e => rset st k ⟨e.count, some w⟩

/-- Redis TTL, in seconds: -2 for an absent key, -1 for a key without an
expiry, otherwise the remaining time to live. -/
def redisTTLSeconds (st : RedisStore) (k : String) : Int :=
  match st k with
  | none => -2
  | some e => match e.ttl with
    | none => -1
    | some t => (t : Int)

/-- One unit of time passing for a single key: a key without expiry
persists; a key whose remaining TTL reaches zero is deleted by the store. -/
def tickKey (e : RKeyState) : Option RKeyState :=
  match e.ttl with
  | none => some e
  | some t => if t ≤ 1 then none else some ⟨e.count, some (t - 1)⟩

/-- One unit of time passing for the whole store. -/
def redisTick (st : RedisStore) : RedisStore :=
  fun k => (st k).bind tickKey

/-- Which of the rate limiter's store round trips fail on a given request.
`expireErr` matters because the Go code discards the result of
`RedisClient.Expire`, and `ttlErr` because it discards the error of
`RedisClient.TTL`. -/
structure RedisEnv where
  incrErr : Bool
  expireErr : Bool
  ttlErr : Bool
deriving DecidableEq, Repr

/-- Outcome of the middleware, mirroring the three exits of
`IssueRateLimiter`: a 500 "redis error" abort, a 429 "rate limit
exceeded" abort carrying `retry_after` seconds, or `c.Next()`. -/
inductive LimiterResult where
  | redisError : LimiterResult
  | rateLimited : Int → LimiterResult
  | allowed : LimiterResult
deriving DecidableEq, Repr

/-- Full observation of one middleware execution: the store afterwards,
the HTTP-level result, the value returned by INCR (`none` when INCR
failed), and whether the EXPIRE call was issued. -/
structure LimiterOutcome where
  state : RedisStore
  result : LimiterResult
  n : Option Int
  expireInvoked : Bool

/-- Embedding of `IssueRateLimiter` (src/middlewares/issueRateLimiter.go).
The key is `"rate_limit:" ++ userID` where `userID` is the raw `user_id`
request header; the counter is incremented by a single INCR; on a failed
INCR the handler aborts with "redis error"; when the post-increment value
is 1 the TTL is set to the window (its error discarded); when the value
exceeds the limit the handler aborts with 429 and `retry_after` equal to
the TTL query result, or 0 when the TTL query fails (its error is
discarded and the zero duration used). -/
def issueRateLimiter (limit : Int) (window : Nat) (userID : String)
    (st : RedisStore) (env : RedisEnv) : LimiterOutcome :=
  let key := "rate_limit:" ++ userID
  if env.incrErr then ⟨st, .redisError, none, false⟩
  else
    let r := redisIncr st key
    let count := r.1
    let st1 := r.2
    let st2 := if count = 1 then
        (if env.expireErr then st1 else redisExpire st1 key window)
      else st1
    let invoked := count = 1
    if count > limit then
      let ttlS : Int := if env.ttlErr then 0 else redisTTLSeconds st2 key
      ⟨st2, .rateLimited ttlS, some count, decide invoked⟩
    else ⟨st2, .allowed, some count, decide invoked⟩

/-- Counter value currently stored at a key (0 for an absent key). -/
def countAt (st : RedisStore) (k : String) : Int :=
  match st k with
  | none => 0
  | some e => e.count

/-- A gin request as seen by the create-issue middleware chain: the raw
`user_id` HTTP header, and the context value `"user_id"` that
`AuthMiddleware` (src/middlewares/authMiddleware.go) sets from the
verified JWT claims. -/
structure GinRequest where
  headerUserID : String
  ctxUserID : Option String

/-- The rate limiter as mounted on the create-issue route: it reads the
principal with `c.GetHeader "user_id"`, i.e. from the raw header. -/
def issueRateLimiterOnRequest (limit : Int) (window : Nat)
    (req : GinRequest) (st : RedisStore) (env : RedisEnv) : LimiterOutcome :=
  issueRateLimiter limit window req.headerUserID st env

/-- The all-round-trips-succeed environment. -/
def goodREnv : RedisEnv := ⟨false, false, false⟩

/-- Iterated successful calls of the rate limiter by one principal. -/
def runLimiter (limit : Int) (window : Nat) (uid : String)
    (st : RedisStore) : Nat → RedisStore
  | 0 => st
  | k + 1 =>
      (issueRateLimiter limit window uid (runLimiter limit window uid st k)
        goodREnv).state

/-- States of the counter store reachable by any sequence of rate-limiter
executions (with arbitrary per-call failures) and time passage, from the
empty store. -/
inductive RedisReachable (limit : Int) (window : Nat) : RedisStore → Prop
  | init : RedisReachable limit window emptyRedis
  | step (uid : String) (env : RedisEnv) (st : RedisStore) :
      RedisReachable limit window st →
      RedisReachable limit window (issueRateLimiter limit window uid st env).state
  | tick (st : RedisStore) :
      RedisReachable limit window st →
      RedisReachable limit window (redisTick st)

/-- Reachability restricted to executions in which the EXPIRE round trip
never fails. -/
inductive RedisReachableGood (limit : Int) (window : Nat) : RedisStore → Prop
  | init : RedisReachableGood limit window emptyRedis
  | step (uid : String) (env : RedisEnv) (st : RedisStore) :
      env.expireErr = false →
      RedisReachableGood limit window st →
      RedisReachableGood limit window (issueRateLimiter limit window uid st env).state
  | tick (st : RedisStore) :
      RedisReachableGood limit window st →
      RedisReachableGood limit window (redisTick st)

/-! ## Document-store model and the vote toggle -/

/-- A MongoDB object identifier, as produced by
`primitive.ObjectIDFromHex`: a 12-byte value written as 24 hex digits
(case-insensitive, stored lowercased). -/
structure ObjectId where
  hex : String
deriving DecidableEq, Repr

/-- Hex digits accepted by `ObjectIDFromHex`. -/
def isHexChar (c : Char) : Bool :=
  ('0' ≤ c && c ≤ '9') || ('a' ≤ c && c ≤ 'f') || ('A' ≤ c && c ≤ 'F')

/-- Lower-casing of a hex digit, mirroring that Go's hex decoding treats
upper- and lower-case digits alike: two spellings of the same id decode to
the same 12-byte value. -/
def hexLower (c : Char) : Char :=
  if c = 'A' then 'a' else if c = 'B' then 'b' else if c = 'C' then 'c'
  else if c = 'D' then 'd' else if c = 'E' then 'e'
  else if c = 'F' then 'f' else c

/-- Embedding of `primitive.ObjectIDFromHex`: succeeds exactly on 24-digit
hex strings. -/
def objectIDFromHex (s : String) : Option ObjectId :=
  if s.length == 24 && s.data.all isHexChar
  then some ⟨⟨s.data.map hexLower⟩⟩ else none

/-- The `Vote` document (src/models/vote.go): identifier, issue reference,
user reference, creation timestamp. Identifiers and timestamps are
abstracted to naturals drawn from a generator in the store state. -/
structure Vote where
  id : Nat
  issue : ObjectId
  user : ObjectId
  createdAt : Nat
deriving DecidableEq, Repr

/-- The filter `bson.M{"issue": i, "user": u}` on vote documents. -/
def pairMatch (i u : ObjectId) (v : Vote) : Bool :=
  decide (v.issue = i ∧ v.user = u)

/-- The filter `bson.M{"issue": i}` on vote documents. -/
def issueMatch (i : ObjectId) (v : Vote) : Bool :=
  decide (v.issue = i)

/-- The document store as the vote toggle sees it: the set of existing
issue ids, the vote collection (insertion-ordered), whether the unique
compound (issue, user) index of `EnsureVoteIndex` has been created on the
vote collection, and a fresh-id generator for `primitive.NewObjectID`. -/
structure MongoState where
  issues : List ObjectId
  votes : List Vote
  voteIndexUnique : Bool
  nextId : Nat
deriving DecidableEq, Repr

/-- Embedding of `EnsureVoteIndex` (src/models/vote.go): declares the
unique compound index on (issue, user). Note that no code path of the
repository ever calls this function: `main` (src/unnamed/part_000) only
connects to the stores and registers routes. -/
def ensureVoteIndex (st : MongoState) : MongoState :=
  { st with voteIndexUnique := true }

/-- `CountDocuments` with the (issue, user) pair filter. -/
def countPair (st : MongoState) (i u : ObjectId) : Nat :=
  (st.votes.filter (pairMatch i u)).length

/-- `CountDocuments` with the issue filter. -/
def countIssue (st : MongoState) (i : ObjectId) : Nat :=
  (st.votes.filter (issueMatch i)).length

/-- `DeleteOne` with the (issue, user) pair filter: removes the first
matching document; a no-op when nothing matches. -/
def deleteOnePair (st : MongoState) (i u : ObjectId) : MongoState :=
  { st with votes := st.votes.eraseP (pairMatch i u) }

/-- `InsertOne` on the vote collection: rejected with a duplicate-key
error (`none`) exactly when the unique (issue, user) index exists and a
document with the same pair is already present; otherwise the document is
appended. -/
def insertVoteDoc (st : MongoState) (v : Vote) : Option MongoState :=
  if st.voteIndexUnique && !(st.votes.filter (pairMatch v.issue v.user)).isEmpty
  then none
  else some { st with votes := st.votes ++ [v], nextId := st.nextId + 1 }

/-- Which of the vote toggle's store round trips fail transiently on a
given request, plus the current wall-clock time used for `CreatedAt`. -/
structure MongoEnv where
  findIssueErr : Bool
  countPairErr : Bool
  deleteErr : Bool
  insertErr : Bool
  finalCountErr : Bool
  now : Nat
deriving DecidableEq, Repr

/-- The JSON responses `HandleVoteOnIssue` can produce: 400, 401, 404,
500, or 200 with a message, the voted flag, and the reported vote count. -/
inductive HResp where
  | badRequest : String → HResp
  | unauthorized : String → HResp
  | notFound : String → HResp
  | serverError : String → HResp
  | ok : String → Bool → Nat → HResp
deriving DecidableEq, Repr

/-- The act phase of `HandleVoteOnIssue` (src/controllers/issueController.go,
lines 633-683), taking the result `count` of the earlier check query: when
`count > 0` it deletes the vote and reports unvoted; otherwise it inserts a
new vote and reports voted; any delete or insert error (including a
duplicate-key rejection of the insert) yields a 500 response; when the
final `CountDocuments` fails its error is discarded and the constant 0
(delete path) or 1 (insert path) is reported instead. -/
def voteAct (issueID userObjID : ObjectId) (count : Nat) (st : MongoState)
    (env : MongoEnv) : MongoState × HResp :=
  if count > 0 then
    if env.deleteErr then (st, .serverError "Failed to remove vote")
    else
      let st1 := deleteOnePair st issueID userObjID
      (st1, .ok "Vote removed successfully" false
        (if env.finalCountErr then 0 else countIssue st1 issueID))
  else
    if env.insertErr then (st, .serverError "Failed to cast vote")
    else
      match insertVoteDoc st ⟨st.nextId, issueID, userObjID, env.now⟩ with
      | none => (st, .serverError "Failed to cast vote")
      | some st1 =>
        (st1, .ok "Vote cast successfully" true
          (if env.finalCountErr then 1 else countIssue st1 issueID))

/-- The body of `HandleVoteOnIssue` after identifier validation: issue
existence check (404 when absent, 500 when the lookup fails), the
check query for an existing (issue, user) vote, then the act phase. -/
def toggleVoteCore (issueID userObjID : ObjectId) (st : MongoState)
    (env : MongoEnv) : MongoState × HResp :=
  if env.findIssueErr then (st, .serverError "Failed to retrieve issue")
  else if issueID ∈ st.issues then
    if env.countPairErr then (st, .serverError "Failed to check existing votes")
    else voteAct issueID userObjID (countPair st issueID userObjID) st env
  else (st, .notFound "Issue not found")

/-- Embedding of `HandleVoteOnIssue`: parses the issue id path parameter
(400 on failure), reads the context principal set by `AuthMiddleware`
(401 when absent), parses it (400 on failure), then runs the toggle. -/
def handleVoteOnIssue (idParam : String) (ctxUserID : Option String)
    (st : MongoState) (env : MongoEnv) : MongoState × HResp :=
  match objectIDFromHex idParam with
  | none => (st, .badRequest "Invalid issue ID")
  | some issueID =>
    match ctxUserID with
    | none => (st, .unauthorized "User not authenticated")
    | some uidStr =>
      match objectIDFromHex uidStr with
      | none => (st, .badRequest "Invalid user ID")
      | some userObjID => toggleVoteCore issueID userObjID st env

/-- The all-round-trips-succeed environment for the vote toggle. -/
def goodMEnv : MongoEnv := ⟨false, false, false, false, false, 0⟩

/-- One sequential, failure-free toggle by a fixed (issue, user) pair. -/
def toggleStep (i u : ObjectId) (st : MongoState) : MongoState :=
  (toggleVoteCore i u st goodMEnv).1

/-- Iterated sequential toggles by a fixed (issue, user) pair. -/
def iterToggle (i u : ObjectId) : Nat → MongoState → MongoState
  | 0, st => st
  | n + 1, st => iterToggle i u n (toggleStep i u st)

/-- The primitive mutations any interleaving of vote-toggle executions
(and the cascade delete of `DeleteIssue`) can issue against the vote
collection. A rejected insert (duplicate key) leaves the store unchanged. -/
inductive VoteOp where
  | insertDoc : Vote → VoteOp
  | removeOnePair : ObjectId → ObjectId → VoteOp
  | removeManyIssue : ObjectId → VoteOp
deriving DecidableEq, Repr

/-- Effect of one primitive vote-collection mutation. -/
def applyVoteOp (st : MongoState) : VoteOp → MongoState
  | .insertDoc v => (insertVoteDoc st v).getD st
  | .removeOnePair i u => deleteOnePair st i u
  | .removeManyIssue i =>
      { st with votes := st.votes.filter (fun v => !(issueMatch i v)) }

/-- Effect of a sequence of primitive vote-collection mutations. -/
def runVoteOps (st : MongoState) (ops : List VoteOp) : MongoState :=
  ops.foldl applyVoteOp st

/-- At most one vote document exists per (issue, user) pair. -/
def pairUnique (st : MongoState) : Prop :=
  ∀ i u : ObjectId, countPair st i u ≤ 1

/-- Concrete object ids used for witnesses and counterexamples. -/
def oidA : ObjectId := ⟨"aaaaaaaaaaaaaaaaaaaaaaaa"⟩

/-- Concrete object id of a second user. -/
def oidB : ObjectId := ⟨"bbbbbbbbbbbbbbbbbbbbbbbb"⟩

/-- Concrete object id of a voting user. -/
def oidC : ObjectId := ⟨"cccccccccccccccccccccccc"⟩

/-! ### Store lemmas -/

lemma rset_self (st : RedisStore) (k : String) (v : RKeyState) :
    rset st k v k = some v := by
  simp [rset]

lemma rset_ne (st : RedisStore) (k k' : String) (v : RKeyState)
    (h : k' ≠ k) : rset st k v k' = st k' := by
  simp [rset, h]

/-- C3: `Admit` implements the fixed-window algorithm: the key is computed
from the namespace prefix and the principal; the counter for the key is
incremented by one atomic INCR whose returned post-increment value `n` is
exactly the value then stored at the key (no separate read-then-write);
the EXPIRE call is issued exactly when `n = 1`, and (when it succeeds)
leaves the key at count 1 with TTL equal to the window; the request is
allowed iff `n ≤ limit`; and the counter is incremented on every call,
including calls that are ultimately rejected. -/
theorem C3_fixed_window_algorithm (limit : Int) (window : Nat) (uid : String)
    (st : RedisStore) (env : RedisEnv)
    (hIncr : env.incrErr = false) (hExp : env.expireErr = false) :
    (issueRateLimiter limit window uid st env).n =
      some (countAt st ("rate_limit:" ++ uid) + 1) ∧
    countAt (issueRateLimiter limit window uid st env).state
        ("rate_limit:" ++ uid) = countAt st ("rate_limit:" ++ uid) + 1 ∧
    ((issueRateLimiter limit window uid st env).expireInvoked = true ↔
      countAt st ("rate_limit:" ++ uid) + 1 = 1) ∧
    ((issueRateLimiter limit window uid st env).expireInvoked = true →
      (issueRateLimiter limit window uid st env).state ("rate_limit:" ++ uid) =
        some ⟨1, some window⟩) ∧
    ((issueRateLimiter limit window uid st env).result = .allowed ↔
      countAt st ("rate_limit:" ++ uid) + 1 ≤ limit) := by
  cases hk : st ("rate_limit:" ++ uid) with
  | none =>
    by_cases hl : (1 : Int) > limit <;>
      refine ⟨?_, ?_, ?_, ?_, ?_⟩ <;>
        simp [issueRateLimiter, hIncr, hExp, redisIncr, hk, hl, countAt,
          redisExpire, rset_self] <;> omega
  | some e =>
    obtain ⟨c, t⟩ := e
    by_cases h1 : c = 0
    · subst h1
      by_cases hl : (1 : Int) > limit <;>
        refine ⟨?_, ?_, ?_, ?_, ?_⟩ <;>
          simp [issueRateLimiter, hIncr, hExp, redisIncr, hk, hl, countAt,
            redisExpire, rset_self] <;> omega
    · have h1' : ¬ (c + 1 = 1) := by omega
      by_cases hl : c + 1 > limit <;>
        refine ⟨?_, ?_, ?_, ?_, ?_⟩ <;>
          simp [issueRateLimiter, hIncr, hExp, redisIncr, hk, h1', hl, countAt,
            redisExpire, rset_self] <;> omega

/-- Witness for C3 at a concrete input. -/
theorem C3_fixed_window_algorithm_witness :
    (issueRateLimiter 2 10 "u" emptyRedis goodREnv).n =
      some (countAt emptyRedis "rate_limit:u" + 1) ∧
    countAt (issueRateLimiter 2 10 "u" emptyRedis goodREnv).state
        "rate_limit:u" = countAt emptyRedis "rate_limit:u" + 1 ∧
    ((issueRateLimiter 2 10 "u" emptyRedis goodREnv).expireInvoked = true ↔
      countAt emptyRedis "rate_limit:u" + 1 = 1) ∧
    ((issueRateLimiter 2 10 "u" emptyRedis goodREnv).expireInvoked = true →
      (issueRateLimiter 2 10 "u" emptyRedis goodREnv).state "rate_limit:u" =
        some ⟨1, some 10⟩) ∧
    ((issueRateLimiter 2 10 "u" emptyRedis goodREnv).result = .allowed ↔
      countAt emptyRedis "rate_limit:u" + 1 ≤ 2) :=
  C3_fixed_window_algorithm 2 10 "u" emptyRedis goodREnv rfl rfl

/-- C4: when the INCR round trip fails, the request is rejected with the
distinct "redis error" outcome (HTTP 500), never reported allowed: the
rate limiter is fail-closed. -/
theorem C4_fail_closed (limit : Int) (window : Nat) (uid : String)
    (st : RedisStore) (env : RedisEnv) (h : env.incrErr = true) :
    (issueRateLimiter limit window uid st env).result = .redisError ∧
    (issueRateLimiter limit window uid st env).result ≠ .allowed ∧
    (issueRateLimiter limit window uid st env).state = st := by
  refine ⟨?_, ?_, ?_⟩ <;> simp [issueRateLimiter, h]

lemma limiter_base (limit : Int) (window : Nat) (uid : String)
    (st : RedisStore) (env : RedisEnv) (hI : env.incrErr = false) :
    countAt (issueRateLimiter limit window uid st env).state
        ("rate_limit:" ++ uid) = countAt st ("rate_limit:" ++ uid) + 1 ∧
    ((issueRateLimiter limit window uid st env).result = .allowed ↔
      countAt st ("rate_limit:" ++ uid) + 1 ≤ limit) := by
  cases hk : st ("rate_limit:" ++ uid) with
  | none =>
    by_cases hE : env.expireErr <;> by_cases hl : (1 : Int) > limit <;>
      refine ⟨?_, ?_⟩ <;>
        simp [issueRateLimiter, hI, hE, redisIncr, hk, hl, countAt,
          redisExpire, rset_self] <;> omega
  | some e =>
    obtain ⟨c, t⟩ := e
    by_cases h1 : c = 0
    · subst h1
      by_cases hE : env.expireErr <;> by_cases hl : (1 : Int) > limit <;>
        refine ⟨?_, ?_⟩ <;>
          simp [issueRateLimiter, hI, hE, redisIncr, hk, hl, countAt,
            redisExpire, rset_self] <;> omega
    · have h1' : ¬ (c + 1 = 1) := by omega
      by_cases hl : c + 1 > limit <;>
        refine ⟨?_, ?_⟩ <;>
          simp [issueRateLimiter, hI, redisIncr, hk, h1', hl, countAt,
            redisExpire, rset_self] <;> omega

lemma limiter_state_absent (limit : Int) (window : Nat) (uid : String)
    (st : RedisStore) (env : RedisEnv) (hI : env.incrErr = false)
    (hE : env.expireErr = false) (hk : st ("rate_limit:" ++ uid) = none) :
    (issueRateLimiter limit window uid st env).state =
      rset (rset st ("rate_limit:" ++ uid) ⟨1, none⟩)
        ("rate_limit:" ++ uid) ⟨1, some window⟩ := by
  by_cases hl : (1 : Int) > limit <;>
    simp [issueRateLimiter, hI, hE, redisIncr, hk, hl, redisExpire, rset_self]

lemma limiter_state_present (limit : Int) (window : Nat) (uid : String)
    (st : RedisStore) (env : RedisEnv) (c : Int) (t : Option Nat)
    (hI : env.incrErr = false) (hk : st ("rate_limit:" ++ uid) = some ⟨c, t⟩)
    (hc : c ≠ 0) :
    (issueRateLimiter limit window uid st env).state =
      rset st ("rate_limit:" ++ uid) ⟨c + 1, t⟩ := by
  have h1 : ¬ (c + 1 = 1) := by omega
  by_cases hl : c + 1 > limit <;>
    simp [issueRateLimiter, hI, redisIncr, hk, h1, hl]

lemma runLimiter_state (limit : Int) (window : Nat) (uid : String)
    (st : RedisStore) (habs : st ("rate_limit:" ++ uid) = none) :
    ∀ k : Nat, 1 ≤ k →
      (runLimiter limit window uid st k) ("rate_limit:" ++ uid) =
        some ⟨(k : Int), some window⟩ := by
  intro k
  induction k with
  | zero => omega
  | succ n ih =>
    intro _
    by_cases hn : n = 0
    · subst hn
      show (issueRateLimiter limit window uid st goodREnv).state
          ("rate_limit:" ++ uid) = _
      rw [limiter_state_absent limit window uid st goodREnv rfl rfl habs,
        rset_self]
      norm_num
    · have hprev := ih (Nat.one_le_iff_ne_zero.mpr hn)
      show (issueRateLimiter limit window uid
          (runLimiter limit window uid st n) goodREnv).state
          ("rate_limit:" ++ uid) = _
      rw [limiter_state_present limit window uid _ goodREnv (n : Int)
        (some window) rfl hprev (by exact_mod_cast hn), rset_self]
      norm_num

/-- Witness for C4 at a concrete input. -/
theorem C4_fail_closed_witness :
    (issueRateLimiter 2 10 "u" emptyRedis ⟨true, false, false⟩).result =
      .redisError ∧
    (issueRateLimiter 2 10 "u" emptyRedis ⟨true, false, false⟩).result ≠
      .allowed ∧
    (issueRateLimiter 2 10 "u" emptyRedis ⟨true, false, false⟩).state =
      emptyRedis :=
  C4_fail_closed 2 10 "u" emptyRedis ⟨true, false, false⟩ rfl

/-- C5 counterexample: the claim says a failed TTL lookup yields a
conservative non-zero retryAfter, never zero. In the code the TTL error is
discarded (`ttl, _ := ...TTL(...).Result()`) and the zero duration is
reported: with the key at count 1 (TTL 5) and limit 1, the over-limit call
whose TTL lookup fails reports `retry_after = 0`. -/
theorem C5_counterexample :
    (issueRateLimiter 1 10 "u" (rset emptyRedis "rate_limit:u" ⟨1, some 5⟩)
      ⟨false, false, true⟩).result = .rateLimited 0 := by decide

/-- C5 amended: when the post-increment count exceeds the limit the
request is rejected with retryAfter equal to the remaining TTL of the key
when the TTL lookup succeeds, but equal to zero (not a non-zero default)
when the TTL lookup fails; in a window opened by a successful first call,
the (limit+1)-th call is rejected with retryAfter equal to the window,
which is positive. -/
theorem C5_retry_after_amended :
    (∀ (limit : Int) (window : Nat) (uid : String) (st : RedisStore)
       (env : RedisEnv), env.incrErr = false → env.ttlErr = true →
       countAt st ("rate_limit:" ++ uid) + 1 > limit →
       (issueRateLimiter limit window uid st env).result = .rateLimited 0) ∧
    (∀ (limit : Int) (window : Nat) (uid : String) (st : RedisStore)
       (env : RedisEnv) (c : Int) (t : Nat),
       env.incrErr = false → env.ttlErr = false →
       st ("rate_limit:" ++ uid) = some ⟨c, some t⟩ → c ≠ 0 → c + 1 > limit →
       (issueRateLimiter limit window uid st env).result =
         .rateLimited (t : Int)) ∧
    (∀ (limit : Nat) (window : Nat) (uid : String) (st : RedisStore),
       0 < window → st ("rate_limit:" ++ uid) = none →
       (issueRateLimiter (limit : Int) window uid
           (runLimiter (limit : Int) window uid st limit) goodREnv).result =
         .rateLimited (window : Int) ∧ (0 : Int) < (window : Int)) := by
  refine ⟨?_, ?_, ?_⟩
  · intro limit window uid st env hI hT hgt
    cases hk : st ("rate_limit:" ++ uid) with
    | none =>
      simp [countAt, hk] at hgt
      have hl : (1 : Int) > limit := by omega
      by_cases hE : env.expireErr <;>
        simp [issueRateLimiter, hI, hE, hT, redisIncr, hk, hl,
          redisExpire, rset_self]
    | some e =>
      obtain ⟨c, t⟩ := e
      simp [countAt, hk] at hgt
      have hl : c + 1 > limit := by omega
      by_cases h1 : c = 0
      · subst h1
        have hl1 : (0 : Int) + 1 > limit := by omega
        have hl2 : limit < 1 := by omega
        by_cases hE : env.expireErr <;>
          simp [issueRateLimiter, hI, hE, hT, redisIncr, hk, hl1, hl2,
            redisExpire, rset_self]
      · have h1' : ¬ (c + 1 = 1) := by omega
        simp [issueRateLimiter, hI, hT, redisIncr, hk, h1', hl]
  · intro limit window uid st env c t hI hT hk hc hl
    have h1 : ¬ (c + 1 = 1) := by omega
    simp [issueRateLimiter, hI, hT, redisIncr, hk, h1, hl,
      redisTTLSeconds, rset_self]
  · intro limit window uid st hw habs
    refine ⟨?_, by exact_mod_cast hw⟩
    by_cases h0 : limit = 0
    · subst h0
      show (issueRateLimiter ((0 : Nat) : Int) window uid st goodREnv).result = _
      have hl : (1 : Int) > ((0 : Nat) : Int) := by norm_num
      simp [issueRateLimiter, goodREnv, redisIncr, habs, hl,
        redisExpire, rset_self, redisTTLSeconds]
    · have hprev := runLimiter_state (limit : Int) window uid st habs limit
        (Nat.one_le_iff_ne_zero.mpr h0)
      have hc : ((limit : Int)) ≠ 0 := by exact_mod_cast h0
      have h1 : ¬ ((limit : Int) + 1 = 1) := by omega
      have hl : (limit : Int) + 1 > (limit : Int) := by omega
      simp [issueRateLimiter, goodREnv, redisIncr, hprev, h1, hl,
        redisTTLSeconds, rset_self]

/-- Witness for the amended C5 at a concrete input: key at count 1 with
TTL 5, limit 1, successful TTL lookup. -/
theorem C5_retry_after_amended_witness :
    (issueRateLimiter 1 10 "u" (rset emptyRedis "rate_limit:u" ⟨1, some 5⟩)
      ⟨false, false, false⟩).result = .rateLimited 5 :=
  C5_retry_after_amended.2.1 1 10 "u"
    (rset emptyRedis "rate_limit:u" ⟨1, some 5⟩) ⟨false, false, false⟩ 1 5
    rfl rfl (by decide) (by decide) (by decide)

/-- C6 counterexample: the claim says every reachable counter-store state
gives each key with positive count a finite TTL. The EXPIRE call of the
code is a separate follow-up step whose result is discarded; when it fails
(or has not yet executed) the key persists with count 1 and no TTL, and
such a state is reachable. -/
theorem C6_counterexample :
    RedisReachable 2 10
      ((issueRateLimiter 2 10 "u" emptyRedis ⟨false, true, false⟩).state) ∧
    (issueRateLimiter 2 10 "u" emptyRedis ⟨false, true, false⟩).state
        "rate_limit:u" = some ⟨1, none⟩ ∧ (0 : Int) < 1 :=
  ⟨RedisReachable.step "u" ⟨false, true, false⟩ emptyRedis
    RedisReachable.init, by decide, by norm_num⟩

/-- C6 amended: provided the EXPIRE round trip succeeds on every call, in
every reachable counter-store state each present key has positive count
and a finite positive TTL (keys are deleted by the store when the TTL
runs out); and the first operation of a window creates the key with count
1 and TTL equal to the window length. -/
theorem C6_window_invariant_amended (limit : Int) (window : Nat)
    (hw : 0 < window) :
    (∀ st : RedisStore, RedisReachableGood limit window st →
      ∀ k e, st k = some e → 0 < e.count ∧ ∃ t, e.ttl = some t ∧ 0 < t) ∧
    (∀ (st : RedisStore) (uid : String) (env : RedisEnv),
      env.incrErr = false → env.expireErr = false →
      st ("rate_limit:" ++ uid) = none →
      (issueRateLimiter limit window uid st env).state ("rate_limit:" ++ uid) =
        some ⟨1, some window⟩) := by
  constructor
  · intro st h
    induction h with
    | init => intro k e hk; simp [emptyRedis] at hk
    | step uid env st' hgood _ ih =>
      intro k e hk
      by_cases hI : env.incrErr = true
      · rw [show (issueRateLimiter limit window uid st' env).state = st' by
          simp [issueRateLimiter, hI]] at hk
        exact ih k e hk
      · have hI' : env.incrErr = false := by
          revert hI; cases env.incrErr <;> simp
        cases hk0 : st' ("rate_limit:" ++ uid) with
        | none =>
          rw [limiter_state_absent limit window uid st' env hI' hgood hk0] at hk
          by_cases hkk : k = "rate_limit:" ++ uid
          · subst hkk
            rw [rset_self, Option.some_inj] at hk
            subst hk
            exact ⟨by norm_num, window, rfl, hw⟩
          · rw [rset_ne _ _ _ _ hkk, rset_ne _ _ _ _ hkk] at hk
            exact ih k e hk
        | some e0 =>
          obtain ⟨c, t⟩ := e0
          obtain ⟨hcpos, t', ht', htpos⟩ := ih ("rate_limit:" ++ uid) ⟨c, t⟩ hk0
          have hc0 : (0 : Int) < c := hcpos
          rw [limiter_state_present limit window uid st' env c t hI' hk0
            (by omega)] at hk
          by_cases hkk : k = "rate_limit:" ++ uid
          · subst hkk
            rw [rset_self, Option.some_inj] at hk
            subst hk
            exact ⟨by show (0 : Int) < c + 1; omega, t', ht', htpos⟩
          · rw [rset_ne _ _ _ _ hkk] at hk
            exact ih k e hk
    | tick st' _ ih =>
      intro k e hk
      simp only [redisTick] at hk
      cases hsk : st' k with
      | none => rw [hsk] at hk; simp at hk
      | some e0 =>
        rw [hsk] at hk
        have hk' : tickKey e0 = some e := hk
        obtain ⟨hcpos, t', ht', htpos⟩ := ih k e0 hsk
        simp only [tickKey, ht'] at hk'
        by_cases h1 : t' ≤ 1
        · simp [h1] at hk'
        · simp only [h1, if_false] at hk'
          rw [Option.some_inj] at hk'
          subst hk'
          exact ⟨hcpos, t' - 1, rfl, by omega⟩
  · intro st uid env hI hE hk
    rw [limiter_state_absent limit window uid st env hI hE hk, rset_self]

/-- Witness for the amended C6 at a concrete input: the store after one
successful call by principal "u" with limit 2, window 10. -/
theorem C6_window_invariant_amended_witness :
    0 < (RKeyState.mk 1 (some 10)).count ∧
    ∃ t, (RKeyState.mk 1 (some 10)).ttl = some t ∧ 0 < t :=
  (C6_window_invariant_amended 2 10 (by norm_num)).1
    ((issueRateLimiter 2 10 "u" emptyRedis goodREnv).state)
    (RedisReachableGood.step "u" goodREnv emptyRedis rfl
      RedisReachableGood.init)
    "rate_limit:u" ⟨1, some 10⟩ (by decide)

/-- C8 counterexample: the claim says an empty principal is rejected
immediately with no counter-store access. In the code there is no
emptiness check: with an empty `user_id` header the key `"rate_limit:"` is
incremented in the store and the request is admitted. -/
theorem C8_counterexample :
    (issueRateLimiter 2 10 "" emptyRedis goodREnv).result = .allowed ∧
    (issueRateLimiter 2 10 "" emptyRedis goodREnv).state "rate_limit:" =
      some ⟨1, some 10⟩ :=
  ⟨by decide, by decide⟩

/-- C8 amended: the rate limiter keys on the raw client-supplied
`user_id` request header and ignores the verified principal that
`AuthMiddleware` stores in the request context (the outcome is identical
for any context principal); an empty header is not rejected: the shared
key `"rate_limit:"` is incremented and the request admitted whenever the
count is within the limit. -/
theorem C8_header_principal_amended :
    (∀ (limit : Int) (window : Nat) (st : RedisStore) (env : RedisEnv)
       (h : String) (ctx ctx' : Option String),
       issueRateLimiterOnRequest limit window ⟨h, ctx⟩ st env =
         issueRateLimiterOnRequest limit window ⟨h, ctx'⟩ st env) ∧
    (∀ (limit : Int) (window : Nat) (st : RedisStore) (env : RedisEnv)
       (ctx : Option String), env.incrErr = false →
       countAt (issueRateLimiterOnRequest limit window ⟨"", ctx⟩ st env).state
           "rate_limit:" = countAt st "rate_limit:" + 1 ∧
       ((issueRateLimiterOnRequest limit window ⟨"", ctx⟩ st env).result =
           .allowed ↔ countAt st "rate_limit:" + 1 ≤ limit)) := by
  constructor
  · intro limit window st env h ctx ctx'
    rfl
  · intro limit window st env ctx hI
    have h := limiter_base limit window "" st env hI
    rw [show "rate_limit:" ++ "" = "rate_limit:" from rfl] at h
    exact h

/-- Witness for the amended C8 at a concrete input: empty header, a
verified context principal present. -/
theorem C8_header_principal_amended_witness :
    countAt (issueRateLimiterOnRequest 2 10 ⟨"", some "alice"⟩ emptyRedis
        goodREnv).state "rate_limit:" = countAt emptyRedis "rate_limit:" + 1 ∧
    ((issueRateLimiterOnRequest 2 10 ⟨"", some "alice"⟩ emptyRedis
        goodREnv).result = .allowed ↔
      countAt emptyRedis "rate_limit:" + 1 ≤ 2) :=
  C8_header_principal_amended.2 2 10 emptyRedis goodREnv (some "alice") rfl

/-! ### Vote-toggle lemmas and claims -/

lemma filter_eraseP_zero {α : Type} (p : α → Bool) :
    ∀ l : List α, (l.filter p).length ≤ 1 →
      ((l.eraseP p).filter p).length = 0 := by
  intro l
  induction l with
  | nil => simp
  | cons a t ih =>
    intro h
    by_cases hp : p a = true
    · rw [List.eraseP_cons_of_pos hp]
      rw [List.filter_cons_of_pos hp] at h
      simp only [List.length_cons] at h
      have ht : (t.filter p).length = 0 := by omega
      exact ht
    · have hp' : ¬ p a := by simpa using hp
      rw [List.eraseP_cons_of_neg hp']
      rw [List.filter_cons_of_neg hp'] at h ⊢
      exact ih h

lemma countPair_append_one (votes : List Vote) (i u : ObjectId) (v : Vote)
    (hv : pairMatch i u v = true) :
    ((votes ++ [v]).filter (pairMatch i u)).length =
      (votes.filter (pairMatch i u)).length + 1 := by
  simp [List.filter_append, hv]

lemma countPair_append_skip (votes : List Vote) (i u : ObjectId) (v : Vote)
    (hv : ¬ pairMatch i u v = true) :
    ((votes ++ [v]).filter (pairMatch i u)).length =
      (votes.filter (pairMatch i u)).length := by
  simp [List.filter_append, hv]

lemma toggleStep_flip (i u : ObjectId) (st : MongoState)
    (hIss : i ∈ st.issues) (hle : countPair st i u ≤ 1) :
    countPair (toggleStep i u st) i u = 1 - countPair st i u ∧
    (toggleStep i u st).issues = st.issues := by
  by_cases hc : countPair st i u > 0
  · have hone : countPair st i u = 1 := by omega
    have hdel : toggleStep i u st = deleteOnePair st i u := by
      simp [toggleStep, toggleVoteCore, goodMEnv, hIss, voteAct, hc]
    rw [hdel, hone]
    refine ⟨?_, rfl⟩
    exact filter_eraseP_zero (pairMatch i u) st.votes hle
  · have hz : countPair st i u = 0 := by omega
    have hmt : st.votes.filter (pairMatch i u) = [] :=
      List.length_eq_zero.mp hz
    have hins : toggleStep i u st =
        { st with votes := st.votes ++ [⟨st.nextId, i, u, 0⟩],
                  nextId := st.nextId + 1 } := by
      simp [toggleStep, toggleVoteCore, goodMEnv, hIss, voteAct, hz,
        insertVoteDoc, hmt]
    rw [hins, hz]
    refine ⟨?_, rfl⟩
    show ((st.votes ++ [(⟨st.nextId, i, u, 0⟩ : Vote)]).filter
      (pairMatch i u)).length = 1
    rw [countPair_append_one st.votes i u _ (by simp [pairMatch])]
    rw [show (st.votes.filter (pairMatch i u)).length = 0 from hz]

lemma iterToggle_count (i u : ObjectId) :
    ∀ (n : Nat) (st : MongoState), i ∈ st.issues → countPair st i u ≤ 1 →
      countPair (iterToggle i u n st) i u = (countPair st i u + n) % 2 ∧
      (iterToggle i u n st).issues = st.issues := by
  intro n
  induction n with
  | zero =>
    intro st _ h2
    refine ⟨?_, rfl⟩
    show countPair st i u = (countPair st i u + 0) % 2
    omega
  | succ m ih =>
    intro st h1 h2
    obtain ⟨hflip, hiss⟩ := toggleStep_flip i u st h1 h2
    have h1' : i ∈ (toggleStep i u st).issues := by rw [hiss]; exact h1
    have h2' : countPair (toggleStep i u st) i u ≤ 1 := by omega
    obtain ⟨ha, hb⟩ := ih (toggleStep i u st) h1' h2'
    constructor
    · show countPair (iterToggle i u m (toggleStep i u st)) i u = _
      rw [ha, hflip]
      omega
    · show (iterToggle i u m (toggleStep i u st)).issues = _
      rw [hb, hiss]

/-- C7: for a fixed (issue, user) pair starting with no vote, sequential
failure-free toggles alternate the pair's state: after n toggles the pair
contributes n % 2 votes to the issue (0 after an even number — back to
NoVote — and 1 after an odd number — Voted), and the issue set is
untouched. -/
theorem C7_toggle_parity (i u : ObjectId) (st : MongoState) (n : Nat)
    (hIss : i ∈ st.issues) (h0 : countPair st i u = 0) :
    countPair (iterToggle i u n st) i u = n % 2 ∧
    (iterToggle i u n st).issues = st.issues := by
  have h := iterToggle_count i u n st hIss (by omega)
  rwa [h0, Nat.zero_add] at h

/-- Witness for C7 at a concrete input: two toggles return the pair to a
0-vote contribution. -/
theorem C7_toggle_parity_witness :
    countPair (iterToggle oidA oidC 2 ⟨[oidA], [], false, 0⟩) oidA oidC =
      2 % 2 ∧
    (iterToggle oidA oidC 2 ⟨[oidA], [], false, 0⟩).issues = [oidA] :=
  C7_toggle_parity oidA oidC ⟨[oidA], [], false, 0⟩ 2 (by decide) (by decide)

/-- C10: the toggle rejects a malformed issue id with 400 "Invalid issue
ID", a malformed user id with 400 "Invalid user ID", and a well-formed
reference to an absent issue with 404 "Issue not found"; in each failure
case the store is returned unchanged — no vote document is created or
deleted. -/
theorem C10_preconditions (idParam : String) (ctx : Option String)
    (st : MongoState) (env : MongoEnv) :
    (objectIDFromHex idParam = none →
      handleVoteOnIssue idParam ctx st env =
        (st, .badRequest "Invalid issue ID")) ∧
    (∀ i uid, objectIDFromHex idParam = some i → ctx = some uid →
      objectIDFromHex uid = none →
      handleVoteOnIssue idParam ctx st env =
        (st, .badRequest "Invalid user ID")) ∧
    (∀ i uid u, objectIDFromHex idParam = some i → ctx = some uid →
      objectIDFromHex uid = some u → env.findIssueErr = false →
      ¬ i ∈ st.issues →
      handleVoteOnIssue idParam ctx st env =
        (st, .notFound "Issue not found")) := by
  refine ⟨?_, ?_, ?_⟩
  · intro h
    simp [handleVoteOnIssue, h]
  · intro i uid h1 h2 h3
    subst h2
    simp [handleVoteOnIssue, h1, h3]
  · intro i uid u h1 h2 h3 h4 h5
    subst h2
    simp [handleVoteOnIssue, h1, h3, toggleVoteCore, h4, h5]

/-- Witness for C10 at concrete inputs exercising all three failure
paths. -/
theorem C10_preconditions_witness :
    handleVoteOnIssue "zz" none ⟨[], [], false, 0⟩ goodMEnv =
      (⟨[], [], false, 0⟩, .badRequest "Invalid issue ID") ∧
    handleVoteOnIssue "aaaaaaaaaaaaaaaaaaaaaaaa" (some "nope")
        ⟨[], [], false, 0⟩ goodMEnv =
      (⟨[], [], false, 0⟩, .badRequest "Invalid user ID") ∧
    handleVoteOnIssue "aaaaaaaaaaaaaaaaaaaaaaaa"
        (some "cccccccccccccccccccccccc") ⟨[], [], false, 0⟩ goodMEnv =
      (⟨[], [], false, 0⟩, .notFound "Issue not found") :=
  ⟨(C10_preconditions "zz" none ⟨[], [], false, 0⟩ goodMEnv).1 (by decide),
   (C10_preconditions "aaaaaaaaaaaaaaaaaaaaaaaa" (some "nope")
       ⟨[], [], false, 0⟩ goodMEnv).2.1 oidA "nope" (by decide) rfl (by decide),
   (C10_preconditions "aaaaaaaaaaaaaaaaaaaaaaaa"
       (some "cccccccccccccccccccccccc") ⟨[], [], false, 0⟩ goodMEnv).2.2
     oidA "cccccccccccccccccccccccc" oidC (by decide) rfl (by decide) rfl
     (by decide)⟩

lemma applyVoteOp_unique (st : MongoState) (op : VoteOp)
    (hf : st.voteIndexUnique = true) (hu : pairUnique st) :
    (applyVoteOp st op).voteIndexUnique = true ∧
    pairUnique (applyVoteOp st op) := by
  cases op with
  | insertDoc v =>
    show ((insertVoteDoc st v).getD st).voteIndexUnique = true ∧
      pairUnique ((insertVoteDoc st v).getD st)
    cases hins : insertVoteDoc st v with
    | none => exact ⟨hf, hu⟩
    | some st1 =>
      simp only [Option.getD_some]
      have hcond : ¬ (st.voteIndexUnique &&
          !(st.votes.filter (pairMatch v.issue v.user)).isEmpty) = true := by
        intro hc
        simp [insertVoteDoc, hc] at hins
      rw [hf] at hcond
      simp only [Bool.true_and, Bool.not_eq_true', Bool.not_eq_false] at hcond
      have hmt : st.votes.filter (pairMatch v.issue v.user) = [] := by
        simpa [List.isEmpty_iff] using hcond
      have hst1 : st1 =
          { st with votes := st.votes ++ [v], nextId := st.nextId + 1 } := by
        simp [insertVoteDoc, hcond] at hins
        exact hins.symm
      subst hst1
      refine ⟨hf, ?_⟩
      intro i u
      show ((st.votes ++ [v]).filter (pairMatch i u)).length ≤ 1
      by_cases hm : pairMatch i u v = true
      · rw [countPair_append_one st.votes i u v hm]
        have hiu : v.issue = i ∧ v.user = u := of_decide_eq_true hm
        have hz : (st.votes.filter (pairMatch i u)).length = 0 := by
          rw [← hiu.1, ← hiu.2]
          simp [hmt]
        omega
      · rw [countPair_append_skip st.votes i u v hm]
        exact hu i u
  | removeOnePair i u =>
    refine ⟨hf, ?_⟩
    intro i' u'
    show ((st.votes.eraseP (pairMatch i u)).filter (pairMatch i' u')).length ≤ 1
    calc ((st.votes.eraseP (pairMatch i u)).filter (pairMatch i' u')).length
        ≤ (st.votes.filter (pairMatch i' u')).length :=
          ((List.eraseP_sublist st.votes).filter _).length_le
      _ ≤ 1 := hu i' u'
  | removeManyIssue i =>
    refine ⟨hf, ?_⟩
    intro i' u'
    show (((st.votes.filter fun v => !(issueMatch i v)).filter
      (pairMatch i' u')).length) ≤ 1
    calc ((st.votes.filter fun v => !(issueMatch i v)).filter
          (pairMatch i' u')).length
        ≤ (st.votes.filter (pairMatch i' u')).length :=
          ((List.filter_sublist st.votes).filter _).length_le
      _ ≤ 1 := hu i' u'

lemma runVoteOps_unique :
    ∀ (ops : List VoteOp) (st : MongoState), st.voteIndexUnique = true →
      pairUnique st → pairUnique (runVoteOps st ops) := by
  intro ops
  induction ops with
  | nil => intro st _ hu; exact hu
  | cons op rest ih =>
    intro st hf hu
    obtain ⟨hf', hu'⟩ := applyVoteOp_unique st op hf hu
    exact ih (applyVoteOp st op) hf' hu'

/-- C1 counterexample: the unique (issue, user) index declared by
`EnsureVoteIndex` is never created — no code path of the program invokes
it, so the vote collection starts and stays without the constraint. Under
the check-then-act race (both toggles read count 0 against the pre-state,
then both insert), the store ends with two Vote documents for the same
(issue, user) pair. -/
theorem C1_counterexample :
    countPair
      ((voteAct oidA oidC
          (countPair (⟨[oidA], [], false, 0⟩ : MongoState) oidA oidC)
          ((voteAct oidA oidC
              (countPair (⟨[oidA], [], false, 0⟩ : MongoState) oidA oidC)
              (⟨[oidA], [], false, 0⟩ : MongoState) goodMEnv).1)
          goodMEnv).1)
      oidA oidC = 2 := by decide

/-- C1 amended: had `ensureVoteIndex` been invoked, the store-level
constraint alone would enforce at-most-one-vote-per-pair: starting from
any store satisfying the invariant, every sequence of primitive
vote-collection mutations — in particular any interleaving of toggle
check-then-act phases — preserves it, because the store rejects a
duplicate insert. -/
theorem C1_index_enforces_uniqueness (st : MongoState) (ops : List VoteOp)
    (h : pairUnique st) :
    pairUnique (runVoteOps (ensureVoteIndex st) ops) :=
  runVoteOps_unique ops (ensureVoteIndex st) rfl h

/-- Witness for the amended C1 at a concrete input: the two racing inserts
of the counterexample, now with the index created — the pair ends with at
most one document. -/
theorem C1_index_enforces_uniqueness_witness :
    countPair
      (runVoteOps (ensureVoteIndex ⟨[oidA], [], false, 0⟩)
        [.insertDoc ⟨0, oidA, oidC, 0⟩, .insertDoc ⟨1, oidA, oidC, 1⟩])
      oidA oidC ≤ 1 :=
  C1_index_enforces_uniqueness ⟨[oidA], [], false, 0⟩
    [.insertDoc ⟨0, oidA, oidC, 0⟩, .insertDoc ⟨1, oidA, oidC, 1⟩]
    (fun i u => by simp [countPair]) oidA oidC

/-- C2 counterexample: with the unique index present, replaying the
duplicate-insert race (both toggles observe count 0 against the
pre-state; the first insert succeeds, the second is rejected by the
index) makes the toggle return the 500 response "Failed to cast vote": it
surfaces the raw storage error instead of catching the constraint
violation and reporting success with state voted. -/
theorem C2_counterexample :
    (voteAct oidA oidC
        (countPair (ensureVoteIndex ⟨[oidA], [], false, 0⟩) oidA oidC)
        ((voteAct oidA oidC
            (countPair (ensureVoteIndex ⟨[oidA], [], false, 0⟩) oidA oidC)
            (ensureVoteIndex ⟨[oidA], [], false, 0⟩) goodMEnv).1)
        goodMEnv).2 = .serverError "Failed to cast vote" := by decide

/-- C2 amended: when the insert of a new vote fails with the store's
duplicate-key rejection (unique index present, a document for the pair
already stored), the toggle treats it like any other insert error: it
responds 500 "Failed to cast vote" with the store unchanged, and does not
reinterpret the violation as a successful vote. -/
theorem C2_duplicate_insert_amended (i u : ObjectId) (st : MongoState)
    (env : MongoEnv) (hIns : env.insertErr = false)
    (hFlag : st.voteIndexUnique = true) (hDup : countPair st i u ≠ 0) :
    voteAct i u 0 st env = (st, .serverError "Failed to cast vote") := by
  have hne : ¬ (st.votes.filter (pairMatch i u)).isEmpty = true := by
    intro hmt
    exact hDup (by simp [countPair, List.isEmpty_iff.mp hmt])
  simp [voteAct, hIns, insertVoteDoc, hFlag, hne]

/-- Witness for the amended C2 at a concrete input. -/
theorem C2_duplicate_insert_amended_witness :
    voteAct oidA oidC 0
        ⟨[oidA], [⟨0, oidA, oidC, 0⟩], true, 1⟩ goodMEnv =
      (⟨[oidA], [⟨0, oidA, oidC, 0⟩], true, 1⟩,
        .serverError "Failed to cast vote") :=
  C2_duplicate_insert_amended oidA oidC
    ⟨[oidA], [⟨0, oidA, oidC, 0⟩], true, 1⟩ goodMEnv rfl rfl (by decide)

/-- C9 counterexample: with one other user's vote already stored, a vote
by a new user whose final count query fails is reported as a 200 success
carrying the substituted constant count 1, although the fresh count of
the resulting store is 2 — the failed round trip is not surfaced as a
transient error. -/
theorem C9_counterexample :
    (handleVoteOnIssue "aaaaaaaaaaaaaaaaaaaaaaaa"
        (some "cccccccccccccccccccccccc")
        ⟨[oidA], [⟨7, oidA, oidB, 0⟩], false, 8⟩
        ⟨false, false, false, false, true, 3⟩).2 =
      .ok "Vote cast successfully" true 1 ∧
    countIssue (handleVoteOnIssue "aaaaaaaaaaaaaaaaaaaaaaaa"
        (some "cccccccccccccccccccccccc")
        ⟨[oidA], [⟨7, oidA, oidB, 0⟩], false, 8⟩
        ⟨false, false, false, false, true, 3⟩).1 oidA = 2 :=
  ⟨by decide, by decide⟩

/-- C9 amended: failures of the issue-lookup, existing-vote check, delete
and insert round trips do surface as 500 errors with the store unchanged;
but a failure of the final vote-count query is swallowed: the toggle
still reports success, substituting the constant 0 (unvote path) or 1
(vote path) for the fresh count. -/
theorem C9_transient_errors_amended (i u : ObjectId) (st : MongoState)
    (env : MongoEnv) :
    (env.findIssueErr = true →
      toggleVoteCore i u st env =
        (st, .serverError "Failed to retrieve issue")) ∧
    (env.findIssueErr = false → i ∈ st.issues → env.countPairErr = true →
      toggleVoteCore i u st env =
        (st, .serverError "Failed to check existing votes")) ∧
    (env.findIssueErr = false → i ∈ st.issues → env.countPairErr = false →
      env.deleteErr = true → countPair st i u > 0 →
      toggleVoteCore i u st env =
        (st, .serverError "Failed to remove vote")) ∧
    (env.findIssueErr = false → i ∈ st.issues → env.countPairErr = false →
      env.insertErr = true → countPair st i u = 0 →
      toggleVoteCore i u st env =
        (st, .serverError "Failed to cast vote")) ∧
    (env.findIssueErr = false → i ∈ st.issues → env.countPairErr = false →
      env.deleteErr = false → env.finalCountErr = true →
      countPair st i u > 0 →
      toggleVoteCore i u st env =
        (deleteOnePair st i u, .ok "Vote removed successfully" false 0)) ∧
    (env.findIssueErr = false → i ∈ st.issues → env.countPairErr = false →
      env.insertErr = false → env.finalCountErr = true →
      countPair st i u = 0 →
      toggleVoteCore i u st env =
        ({ st with votes := st.votes ++ [⟨st.nextId, i, u, env.now⟩],
                   nextId := st.nextId + 1 },
          .ok "Vote cast successfully" true 1)) := by
  refine ⟨?_, ?_, ?_, ?_, ?_, ?_⟩
  · intro hF
    simp [toggleVoteCore, hF]
  · intro hF hIss hC
    simp [toggleVoteCore, hF, hIss, hC]
  · intro hF hIss hC hD hgt
    simp [toggleVoteCore, hF, hIss, hC, voteAct, hD, hgt]
  · intro hF hIss hC hI hz
    simp [toggleVoteCore, hF, hIss, hC, voteAct, hI, hz]
  · intro hF hIss hC hD hFC hgt
    simp [toggleVoteCore, hF, hIss, hC, voteAct, hD, hFC, hgt]
  · intro hF hIss hC hI hFC hz
    have hmt : st.votes.filter (pairMatch i u) = [] :=
      List.length_eq_zero.mp hz
    simp [toggleVoteCore, hF, hIss, hC, voteAct, hI, hFC, hz,
      insertVoteDoc, hmt]

/-- Witness for the amended C9 at a concrete input: an unvote whose final
count query fails reports success with the substituted constant 0. -/
theorem C9_transient_errors_amended_witness :
    toggleVoteCore oidA oidC ⟨[oidA], [⟨0, oidA, oidC, 0⟩], false, 1⟩
        ⟨false, false, false, false, true, 0⟩ =
      (deleteOnePair ⟨[oidA], [⟨0, oidA, oidC, 0⟩], false, 1⟩ oidA oidC,
        .ok "Vote removed successfully" false 0) :=
  (C9_transient_errors_amended oidA oidC
      ⟨[oidA], [⟨0, oidA, oidC, 0⟩], false, 1⟩
      ⟨false, false, false, false, true, 0⟩).2.2.2.2.1
    rfl (by decide) rfl rfl rfl (by decide)

end CivicSync
